import Mathlib

/-!
Verification development for the plateboiler CLI (argument resolution and
command orchestration). The Rust source in `src/` is embedded shallowly:

* Rust `String` operations used by the resolver (`trim`, `to_lowercase`,
  `starts_with`, `split("=")`) are modelled over `String.data : List Char`.
  Lowercasing is modelled on the ASCII range, which covers every catalog
  spelling and every input the claims mention.
* Fallible Rust code returning `Result<T, ProgramError>` becomes
  `RunResult T`; a Rust panic (`todo!`, out-of-bounds indexing) is the
  explicit `RunResult.panicked` constructor.
* Process spawning, the filesystem and the interactive prompt are modelled
  by an explicit environment `Env` of oracles; an orchestration run returns
  its result together with the trace of `(working_dir, command)` pairs it
  handed to the step runner, so "no subsequent step executes" is the trace
  being cut short.
-/

namespace Plateboiler

/-- Mirrors `data::ProgramError` (a message-carrying error struct). -/
structure ProgramError where
  message : String
  deriving DecidableEq, Repr

/-- Result of running a fallible piece of the program: `ok`, a returned
`ProgramError`, or a Rust panic with its message. -/
inductive RunResult (α : Type) where
  | ok (a : α)
  | err (e : ProgramError)
  | panicked (msg : String)
  deriving DecidableEq, Repr

/-- True exactly on the `err` constructor. -/
def RunResult.isErr {α : Type} : RunResult α → Bool
  | .err _ => true
  | _ => false

/-- True exactly on the `panicked` constructor. -/
def RunResult.isPanicked {α : Type} : RunResult α → Bool
  | .panicked _ => true
  | _ => false

/-- Mirrors `data::ProjectType`. -/
inductive ProjectType where
  | Django
  | React
  | Next
  deriving DecidableEq, Repr

/-- Rust `format!` of a `ProjectType` with the `{:?}` debug formatter. -/
def ProjectType.debugStr : ProjectType → String
  | .Django => "Django"
  | .React => "React"
  | .Next => "Next"

/-- Mirrors `data::Flag`; `Value(pub Option<String>)` becomes `Option String`. -/
inductive Flag where
  | Help
  | Verbose
  | Name (v : Option String)
  | Test
  deriving DecidableEq, Repr

/-- ASCII model of Rust `char::to_lowercase` as used on CLI tokens. -/
def lowerChar (c : Char) : Char :=
  if c = 'A' then 'a' else if c = 'B' then 'b' else if c = 'C' then 'c'
  else if c = 'D' then 'd' else if c = 'E' then 'e' else if c = 'F' then 'f'
  else if c = 'G' then 'g' else if c = 'H' then 'h' else if c = 'I' then 'i'
  else if c = 'J' then 'j' else if c = 'K' then 'k' else if c = 'L' then 'l'
  else if c = 'M' then 'm' else if c = 'N' then 'n' else if c = 'O' then 'o'
  else if c = 'P' then 'p' else if c = 'Q' then 'q' else if c = 'R' then 'r'
  else if c = 'S' then 's' else if c = 'T' then 't' else if c = 'U' then 'u'
  else if c = 'V' then 'v' else if c = 'W' then 'w' else if c = 'X' then 'x'
  else if c = 'Y' then 'y' else if c = 'Z' then 'z' else c

/-- ASCII model of Rust `char::is_whitespace` as used by `str::trim`. -/
def isWsChar (c : Char) : Bool :=
  c = ' ' || c = '\t' || c = '\n' || c = '\r'

namespace RStr

/-- Rust `str::to_lowercase`, modelled characterwise. -/
def toLowercase (s : String) : String :=
  ⟨s.data.map lowerChar⟩

/-- Rust `str::trim`: drop whitespace from both ends. -/
def trim (s : String) : String :=
  ⟨((s.data.dropWhile isWsChar).reverse.dropWhile isWsChar).reverse⟩

/-- Rust `str::starts_with` for a string pattern. -/
def startsWith (s p : String) : Bool :=
  List.isPrefixOf p.data s.data

/-- Rust `str::split("=")` on the underlying character list: split at every
`=`, keeping empty pieces, always yielding at least one piece. -/
def splitEqList : List Char → List (List Char)
  | [] => [[]]
  | c :: cs =>
    if c = '=' then [] :: splitEqList cs
    else
      match splitEqList cs with
      | p :: ps => (c :: p) :: ps
      | [] => [[c]]

/-- Rust `str::split("=").collect::<Vec<_>>()`. -/
def split (s : String) : List String :=
  (splitEqList s.data).map (fun l => ⟨l⟩)

end RStr

/-- Mirrors `constants::VALID_PROJECT_OPTIONS`:
`(option, ProjectType, description)`. -/
def VALID_PROJECT_OPTIONS : List (String × ProjectType × String) :=
  [("django", .Django, "Python Django web-framework project. Requires Python version 3. Sets up a virtual environment 'venv' using the standard venv module; Installs Django into venv using pip; Starts a Django project 'core'; Runs the Django dev server."),
   ("react", .React, "Javascript (or TS) React web-app project with Vite. Currently requires/uses Node.js. Uses NPM and Vite CLI to set up a React project with further configurations prompted to user (piped from Vite CLI). Runs the Vite dev server"),
   ("next", .Next, "Javascript (or TS) Next web-framework project. Currently requires/uses Node.js. Uses NPM and Next CLI to set up a Next project with further configurations prompted to user (piped from Next CLI). Runs the Next dev server")]

/-- Mirrors `constants::VALID_FLAGS`:
`(long_form, short_form, Flag, description)`. -/
def VALID_FLAGS : List (String × String × Flag × String) :=
  [("--help", "-h", .Help, "Show CLI help. If passed with an option, shows option description and optional flags with their descriptions."),
   ("--verbose", "-v", .Verbose, "Show all CLI output."),
   ("--name", "-n", .Name none, "Set name of project (--name=<project_name>)."),
   ("--test", "-t", .Test, "Set the target directory of the project folder to <currrent-directory>/test_runs.")]

/-- Mirrors `data::ProgramArguments` (resolved project type and flag list). -/
structure ProgramArguments where
  project_type : Option ProjectType
  flags : List Flag
  deriving DecidableEq, Repr

/-- Mirrors `ProgramArguments::map_string_to_project_type`. -/
def ProgramArguments.map_string_to_project_type (s : String) : RunResult ProjectType :=
  match VALID_PROJECT_OPTIONS.find? (fun project_type => project_type.1 == s) with
  | some project_type => .ok project_type.2.1
  | none =>
    .err ⟨"'" ++ s ++ "' is not a valid project type, run again with --help or -h for more info."⟩

/-- Mirrors `ProgramArguments::map_flag_with_value`. Rust binds
`s_split[0]` and `s_split[1]` unconditionally, so a token with no `=`
(one split piece) panics with the index-out-of-bounds message. -/
def ProgramArguments.map_flag_with_value (s : String) : RunResult Flag :=
  match RStr.split s with
  | key :: value :: _ =>
    (match VALID_FLAGS.find? (fun flag => key == flag.1 || key == flag.2.1) with
     | some flag =>
       match flag.2.2.1 with
       | .Name _ => .ok (.Name (some value))
       | _ =>
         .err ⟨"'" ++ key ++ "' is not a valid flag, run again with --help or -h for more info."⟩
     | none =>
       .err ⟨"'" ++ key ++ "' is not a valid flag, run again with --help or -h for more info."⟩)
  | _ => .panicked "index out of bounds: the len is 1 but the index is 1"

/-- Mirrors `ProgramArguments::map_string_to_flag`. -/
def ProgramArguments.map_string_to_flag (s : String) : RunResult Flag :=
  match VALID_FLAGS.find? (fun flag => flag.1 == s || flag.2.1 == s) with
  | some flag => .ok flag.2.2.1
  | none => ProgramArguments.map_flag_with_value s

/-- The `while let` loop body of `ProgramArguments::build`, with the loop
state (remaining tokens, project type found so far, flags found so far)
made explicit. -/
def ProgramArguments.buildLoop :
    List String → Option ProjectType → List Flag → RunResult ProgramArguments
  | [], project_type, flags => .ok ⟨project_type, flags⟩
  | a :: rest, project_type, flags =>
    let arg := RStr.toLowercase (RStr.trim a)
    if RStr.startsWith arg "-" then
      match ProgramArguments.map_string_to_flag arg with
      | .ok f => ProgramArguments.buildLoop rest project_type (flags ++ [f])
      | .err e => .err e
      | .panicked m => .panicked m
    else
      match project_type with
      | none =>
        match ProgramArguments.map_string_to_project_type arg with
        | .ok t => ProgramArguments.buildLoop rest (some t) flags
        | .err e => .err e
        | .panicked m => .panicked m
      | some _ =>
        .err ⟨"You can only provide one project type! Found extra type '" ++ arg ++ "'"⟩

/-- Mirrors `ProgramArguments::build`. -/
def ProgramArguments.build (raw_args : List String) : RunResult ProgramArguments :=
  ProgramArguments.buildLoop raw_args none []

example : ProgramArguments.build ["django"] = .ok ⟨some .Django, []⟩ := by decide
example : ProgramArguments.build ["--name=MyApp"] = .ok ⟨none, [.Name (some "myapp")]⟩ := by decide
example : ProgramArguments.build ["--name=a=b"] = .ok ⟨none, [.Name (some "a")]⟩ := by decide
example : ProgramArguments.build ["-x"] =
    .panicked "index out of bounds: the len is 1 but the index is 1" := by decide
example : ProgramArguments.build ["django", "react"] =
    .err ⟨"You can only provide one project type! Found extra type 'react'"⟩ := by decide

/-- Outcome of asking the OS to run one command: the spawn itself failed
(`spawnErr`, Rust `io::Error`), or the process ran and exited with a
status (`exited`; `status = 0` is `ExitStatus::success()`). -/
inductive CmdOutcome where
  | spawnErr (e : String)
  | exited (status : Nat) (stdout : String)
  deriving DecidableEq, Repr

/-- Result of `Path::read_dir` followed by iterating entries: the call
itself failed, or it yielded a list of entries, each an `io::Result` of
the entry's path. -/
inductive ReadDirRes where
  | err (e : String)
  | entries (l : List (Except String String))

/-- Oracle environment for all effects the program performs: OS identity,
process spawning, the filesystem, and the interactive prompt. -/
structure Env where
  os : String
  isWindows : Bool
  currentDir : String
  promptInput : RunResult String
  tryExistsTestRuns : Except String Bool
  createDir : String → Except String Unit
  exec : List String → String → String → CmdOutcome
  probeExec : String → CmdOutcome

  readDir : String → ReadDirRes

/-- Mirrors `utils::run_seperate_cmd`: dispatch on the OS, spawn the shell
with the command, and fail only when the spawn itself failed — the exit
status of the spawned command is never inspected. -/
def run_seperate_cmd (env : Env) (cmd : String) : RunResult Unit :=
  if env.os == "linux" then
    match env.probeExec cmd with
    | .spawnErr e => .err ⟨"Error running `" ++ cmd ++ "`: " ++ e⟩
    | .exited _ _ => .ok ()
  else if env.os == "windows" then
    match env.probeExec cmd with
    | .spawnErr e => .err ⟨"Error running `" ++ cmd ++ "`: " ++ e⟩
    | .exited _ _ => .ok ()
  else
    .err ⟨"OS not supported by CLI"⟩

/-- Mirrors `utils::check_if_any_command_passes`: start from `Err(())` and
flip to `Ok(())` whenever one of the commands "passes". -/
def check_if_any_command_passes (env : Env) (cmds : List String) : Except Unit Unit :=
  cmds.foldl
    (fun check_result cmd =>
      match run_seperate_cmd env cmd with
      | .ok _ => .ok ()
      | _ => check_result)
    (.error ())

/-- Mirrors `ProjectType::check_for_django_tooling`. -/
def ProjectType.check_for_django_tooling (env : Env) (self : ProjectType) : RunResult Unit :=
  if (check_if_any_command_passes env ["python --version", "python3 -version"]).isOk = false then
    .err ⟨"Could not confirm if python is installed, in order to set up a " ++
      self.debugStr ++ " project."⟩
  else if (check_if_any_command_passes env
      ["python -m venv --help", "python3 -m venv --help"]).isOk = false then
    .err ⟨"Could not confirm if the venv module is installed, in order to set up a " ++
      self.debugStr ++ " project."⟩
  else if (check_if_any_command_passes env
      ["python -m pip --version", "python3 -m pip --version"]).isOk = false then
    .err ⟨"Could not confirm if the pip package manager is installed, in order to set up a " ++
      self.debugStr ++ " project."⟩
  else
    .ok ()

/-- Mirrors `ProjectType::check_for_react_tooling`. -/
def ProjectType.check_for_react_tooling (env : Env) (self : ProjectType) : RunResult Unit :=
  if (check_if_any_command_passes env ["node --version"]).isOk = false then
    .err ⟨"Could not confirm if Node js is installed, in order to set up a " ++
      self.debugStr ++ " project."⟩
  else if (check_if_any_command_passes env ["npm --version"]).isOk = false then
    .err ⟨"Could not confirm if Npm is installed, in order to set up a " ++
      self.debugStr ++ " project."⟩
  else
    .ok ()

/-- Mirrors `ProjectType::check_for_next_tooling`. -/
def ProjectType.check_for_next_tooling (env : Env) (self : ProjectType) : RunResult Unit :=
  if (check_if_any_command_passes env ["node --version || deno --version"]).isOk = false then
    .err ⟨"Could not confirm if any of Node, or Deno is installed, in order to set up a " ++
      self.debugStr ++ " project."⟩
  else if (check_if_any_command_passes env
      ["npm --version || yarn --version || pnpm --version || deno --version"]).isOk = false then
    .err ⟨"Could not confirm if any of Npm, Yarn, Pnpm, or Deno is installed, in order to set up a " ++
      self.debugStr ++ " project."⟩
  else
    .ok ()

/-- Mirrors `ProjectType::check_for_required_tooling` (the verbose logging
call has no observable effect in this model). -/
def ProjectType.check_for_required_tooling
    (env : Env) (self : ProjectType) (_flags : List Flag) : RunResult Unit :=
  match self with
  | .Django => self.check_for_django_tooling env
  | .React => self.check_for_react_tooling env
  | .Next => self.check_for_next_tooling env

/-- Mirrors `Flag::get_project_name`: `Iterator::find` returns the FIRST
flag matching the `Name(_)` pattern; only if that first match carries
`Value(Some(name))` is the name returned. -/
def Flag.get_project_name (flags : List Flag) : Option String :=
  match flags.find? (fun flag =>
    match flag with
    | .Name _ => true
    | _ => false) with
  | some (.Name (some name)) => some name
  | _ => none

/-- Mirrors `Flag::is_test_run`. -/
def Flag.is_test_run (flags : List Flag) : Bool :=
  flags.contains .Test

/-- Mirrors `data::Terminal` (working directory plus shell prefix). -/
structure Terminal where
  working_dir : String
  base_shell_args : List String
  deriving DecidableEq, Repr

/-- Mirrors `Terminal::new`: `cmd /C` on Windows targets, `sh -c` elsewhere. -/
def Terminal.new (isWindows : Bool) (working_dir : String) : Terminal :=
  if isWindows then ⟨working_dir, ["cmd", "/C"]⟩
  else ⟨working_dir, ["sh", "-c"]⟩

/-- Mirrors `Terminal::run_cmd`: spawn the command through the shell prefix
in the terminal's working directory; a spawn failure wraps the underlying
error after `err_msg`, a non-zero exit status fails with `err_msg` alone. -/
def Terminal.runCmd (env : Env) (t : Terminal)
    (cmd err_msg _log_msg : String) (_flags : List Flag) : RunResult Unit :=
  match env.exec t.base_shell_args t.working_dir cmd with
  | .spawnErr e => .err ⟨err_msg ++ " " ++ e⟩
  | .exited status _stdout => if status == 0 then .ok () else .err ⟨err_msg⟩

/-- The name-acquisition step shared by the Django and React orchestrators:
a `Name` flag's value if present, otherwise the interactive prompt. -/
def acquireName (env : Env) (flags : List Flag) : RunResult String :=
  match Flag.get_project_name flags with
  | some s => .ok s
  | none => env.promptInput

/-- The test-run redirection shared by the Django and React orchestrators:
under `--test`, nest the project under `test_runs`, creating that
directory first when `try_exists` does not confirm it. -/
def testRunRedirect (env : Env) (flags : List Flag) (proj_name : String) : RunResult String :=
  if Flag.is_test_run flags then
    let nested := "test_runs/" ++ proj_name
    if !(match env.tryExistsTestRuns with
         | .ok b => b
         | .error _ => false) then
      match env.createDir "test_runs" with
      | .error e => .err ⟨"Failed to create test_runs directory '" ++ e ++ "'. "⟩
      | .ok _ => .ok nested
    else .ok nested
  else .ok proj_name

/-- Mirrors `ProjectType::set_up_django_project`. The returned list is the
trace of `(working_dir, command)` pairs handed to `Terminal::run_cmd`, in
order. -/
def ProjectType.set_up_django_project
    (env : Env) (flags : List Flag) : RunResult Unit × List (String × String) :=
  match acquireName env flags with
  | .err e => (.err e, [])
  | .panicked m => (.panicked m, [])
  | .ok proj_name0 =>
    match testRunRedirect env flags (RStr.trim proj_name0) with
    | .err e => (.err e, [])
    | .panicked m => (.panicked m, [])
    | .ok proj_name =>
      match env.createDir proj_name with
      | .error e => (.err ⟨"Failed to create project folder '" ++ e ++ "'. "⟩, [])
      | .ok _ =>
        let proj_dir := env.currentDir ++ "/" ++ proj_name
        let terminal := Terminal.new env.isWindows proj_dir
        let wd := terminal.working_dir
        match terminal.runCmd env "python -m venv env" "Failed to create virtual env."
            "setting up virtual environment" flags with
        | .err e => (.err e, [(wd, "python -m venv env")])
        | .panicked m => (.panicked m, [(wd, "python -m venv env")])
        | .ok _ =>
          let activate_cmd := if env.isWindows then "env\\Scripts\\activate.bat"
            else "source env/bin/activate"
          let cmd2 := activate_cmd ++ " && pip install django"
          match terminal.runCmd env cmd2 "Failed to install django with pip."
              "installing django" flags with
          | .err e => (.err e, [(wd, "python -m venv env"), (wd, cmd2)])
          | .panicked m => (.panicked m, [(wd, "python -m venv env"), (wd, cmd2)])
          | .ok _ =>
            let cmd3 := activate_cmd ++ " && django-admin startproject core ."
            match terminal.runCmd env cmd3 "Failed to start a django project."
                "starting a django project" flags with
            | .err e => (.err e, [(wd, "python -m venv env"), (wd, cmd2), (wd, cmd3)])
            | .panicked m => (.panicked m, [(wd, "python -m venv env"), (wd, cmd2), (wd, cmd3)])
            | .ok _ =>
              let cmd4 := activate_cmd ++ " && python manage.py runserver"
              match terminal.runCmd env cmd4 "Failed to run dev server."
                  "running dev server..." flags with
              | .err e =>
                (.err e, [(wd, "python -m venv env"), (wd, cmd2), (wd, cmd3), (wd, cmd4)])
              | .panicked m =>
                (.panicked m, [(wd, "python -m venv env"), (wd, cmd2), (wd, cmd3), (wd, cmd4)])
              | .ok _ =>
                (.ok (), [(wd, "python -m venv env"), (wd, cmd2), (wd, cmd3), (wd, cmd4)])

/-- Mirrors the post-scaffold "cd into project" block of
`ProjectType::set_up_react_project`: repoint the working directory to the
first directory entry when `read_dir` and that entry both succeed, and
silently keep the old terminal otherwise. -/
def reactRepoint (env : Env) (terminal : Terminal) (proj_dir : String) : Terminal :=
  match env.readDir proj_dir with
  | .err _ => terminal
  | .entries l =>
    match l with
    | [] => terminal
    | dir :: _ =>
      match dir with
      | .error _ => terminal
      | .ok p => { terminal with working_dir := p }

/-- Mirrors `ProjectType::set_up_react_project`, with the executed-step
trace as in the Django orchestrator. -/
def ProjectType.set_up_react_project
    (env : Env) (flags : List Flag) : RunResult Unit × List (String × String) :=
  match acquireName env flags with
  | .err e => (.err e, [])
  | .panicked m => (.panicked m, [])
  | .ok proj_name0 =>
    match testRunRedirect env flags (RStr.trim proj_name0) with
    | .err e => (.err e, [])
    | .panicked m => (.panicked m, [])
    | .ok proj_name =>
      match env.createDir proj_name with
      | .error e => (.err ⟨"Failed to create project folder '" ++ e ++ "'. "⟩, [])
      | .ok _ =>
        let proj_dir := env.currentDir ++ "/" ++ proj_name
        let terminal := Terminal.new env.isWindows proj_dir
        match terminal.runCmd env "npm create vite@latest" "Failed to create vite app with npm."
            "creating vite app" flags with
        | .err e => (.err e, [(terminal.working_dir, "npm create vite@latest")])
        | .panicked m => (.panicked m, [(terminal.working_dir, "npm create vite@latest")])
        | .ok _ =>
          let terminal2 := reactRepoint env terminal proj_dir
          match terminal2.runCmd env "npm install" "Failed to install node modules."
              "installing node modules..." flags with
          | .err e =>
            (.err e, [(terminal.working_dir, "npm create vite@latest"),
              (terminal2.working_dir, "npm install")])
          | .panicked m =>
            (.panicked m, [(terminal.working_dir, "npm create vite@latest"),
              (terminal2.working_dir, "npm install")])
          | .ok _ =>
            match terminal2.runCmd env "npm run dev" "Failed to run dev server."
                "running dev server..." flags with
            | .err e =>
              (.err e, [(terminal.working_dir, "npm create vite@latest"),
                (terminal2.working_dir, "npm install"), (terminal2.working_dir, "npm run dev")])
            | .panicked m =>
              (.panicked m, [(terminal.working_dir, "npm create vite@latest"),
                (terminal2.working_dir, "npm install"), (terminal2.working_dir, "npm run dev")])
            | .ok _ =>
              (.ok (), [(terminal.working_dir, "npm create vite@latest"),
                (terminal2.working_dir, "npm install"), (terminal2.working_dir, "npm run dev")])

/-- Mirrors `ProjectType::set_up_next_project`, whose whole body is
`todo!("set_up_next_project")` — a panic, not a returned error. -/
def ProjectType.set_up_next_project : RunResult Unit × List (String × String) :=
  (.panicked "not yet implemented: set_up_next_project", [])

/-- Mirrors `ProjectType::set_up` (the verbose logging call has no
observable effect in this model). -/
def ProjectType.set_up
    (env : Env) (self : ProjectType) (flags : List Flag) : RunResult Unit × List (String × String) :=
  match self with
  | .Django => ProjectType.set_up_django_project env flags
  | .React => ProjectType.set_up_react_project env flags
  | .Next => ProjectType.set_up_next_project

/-- A baseline environment in which every effect succeeds. -/
def envBase : Env where
  os := "linux"
  isWindows := false
  currentDir := "/work"
  promptInput := .ok "app\n"
  tryExistsTestRuns := .ok false
  createDir := fun _ => .ok ()
  exec := fun _ _ _ => .exited 0 ""
  probeExec := fun _ => .exited 0 ""
  readDir := fun _ => .entries []

/-- Environment in which every probe command spawns fine but exits with
status 127 (the shell's command-not-found status): every alternative of
every required-tool probe group fails by exit status. -/
def envProbesExitNonzero : Env :=
  { envBase with probeExec := fun _ => .exited 127 "" }

/-- C1: the claim says `ProgramArguments::build` returns an "unrecognized
flag" error (never panics) for every unmatched `-`-token, with or without
`=`. The code evaluated at the failing input `"-x"` (no `=`): the
`=`-carrying unmatched token does produce the error, but the token without
`=` panics in `map_flag_with_value` on the out-of-bounds `s_split[1]`. -/
theorem build_panics_on_dashed_token_without_eq :
    ProgramArguments.build ["-x"] =
      .panicked "index out of bounds: the len is 1 but the index is 1" ∧
    ProgramArguments.build ["--foo=1"] =
      .err ⟨"'--foo' is not a valid flag, run again with --help or -h for more info."⟩ := by
  constructor
  · decide
  · decide

/-- C2: the claim says that when every alternative command of every probe
group exits with non-zero status, `check_for_required_tooling` returns an
error, and that spawning the shell is not enough to count as success. The
code evaluated at the failing situation: in `envProbesExitNonzero` every
probe spawns and exits 127, yet the check succeeds for every project type,
because `run_seperate_cmd` never inspects the exit status. -/
theorem tooling_check_passes_when_all_probes_exit_nonzero :
    (∀ cmd, envProbesExitNonzero.probeExec cmd = .exited 127 "") ∧
    (∀ (pt : ProjectType) (flags : List Flag),
      pt.check_for_required_tooling envProbesExitNonzero flags = .ok ()) := by
  refine ⟨fun cmd => rfl, fun pt flags => ?_⟩
  cases pt <;> rfl

/-- C3 counterexample: `set_up` on the `Next` project type does not return
an error value — it is a `todo!` panic. -/
theorem set_up_next_is_panic_not_error :
    ProjectType.set_up envBase .Next [] =
      (.panicked "not yet implemented: set_up_next_project", []) ∧
    (ProjectType.set_up envBase .Next []).1.isErr = false := by
  constructor
  · rfl
  · rfl

/-- C3 amended: running `set_up` on the `Next` project type always halts
the run with the explicit `todo!("set_up_next_project")` panic (before any
step executes), rather than by returning a "not implemented" error value. -/
theorem set_up_next_halts_with_todo_panic (env : Env) (flags : List Flag) :
    ProjectType.set_up env .Next flags =
      (.panicked "not yet implemented: set_up_next_project", []) := by
  rfl

/-- C4 counterexample: with two value-carrying `Name` flags, the name used
by orchestration is the value of the first, not the last. -/
theorem get_project_name_takes_first_not_last :
    Flag.get_project_name [Flag.Name (some "a"), Flag.Name (some "b")] = some "a" ∧
    Flag.get_project_name [Flag.Name (some "a"), Flag.Name (some "b")] ≠ some "b" := by
  constructor
  · rfl
  · decide

/-- C4 amended: the project name used by orchestration is the value of the
FIRST `Name` flag in the list (Rust `Iterator::find`): whenever the flags
before it contain no `Name` flag, that first `Name` value wins, whatever
comes after it. -/
theorem get_project_name_first_name_wins (l1 l2 : List Flag) (v : String)
    (h : ∀ f ∈ l1, (match f with | Flag.Name _ => true | _ => false) = false) :
    Flag.get_project_name (l1 ++ Flag.Name (some v) :: l2) = some v := by
  induction l1 with
  | nil =>
    simp [Flag.get_project_name, List.find?]
  | cons f fs ih =>
    have hf := h f (List.mem_cons_self f fs)
    have hrest : ∀ g ∈ fs, (match g with | Flag.Name _ => true | _ => false) = false :=
      fun g hg => h g (List.mem_cons_of_mem f hg)
    have := ih hrest
    simp only [Flag.get_project_name] at this ⊢
    rw [List.cons_append, List.find?_cons_of_neg]
    · exact this
    · simp [hf]

/-- C4 witness: the amended first-wins statement at a concrete flag list. -/
theorem get_project_name_first_name_wins_w :
    Flag.get_project_name [Flag.Verbose, Flag.Name (some "demo"), Flag.Name (some "late")] =
      some "demo" :=
  get_project_name_first_name_wins [Flag.Verbose] [Flag.Name (some "late")] "demo"
    (by intro f hf; simp at hf; subst hf; rfl)

/-- C5 counterexample: resolving `--name=a=b` yields `Name("a")`, not the
`Name("a=b")` the claim states — the value does not keep the later `=`. -/
theorem name_value_drops_after_second_eq :
    ProgramArguments.build ["--name=a=b"] = .ok ⟨none, [Flag.Name (some "a")]⟩ ∧
    ProgramArguments.build ["--name=a=b"] ≠ .ok ⟨none, [Flag.Name (some "a=b")]⟩ := by
  constructor
  · decide
  · decide

/-- C5 amended: the resolver splits the token at EVERY `=` and takes only
the first two pieces, so the value of a `Name` flag is the text strictly
between the first `=` and the second one (or the end); anything after a
second `=` is dropped. -/
theorem map_flag_with_value_second_piece (s v : String) (rest : List String)
    (h : RStr.split s = "--name" :: v :: rest) :
    ProgramArguments.map_flag_with_value s = .ok (.Name (some v)) := by
  simp only [ProgramArguments.map_flag_with_value, h]
  rfl

/-- C5 witness: the amended statement at the concrete token `--name=a=b`. -/
theorem map_flag_with_value_second_piece_w :
    ProgramArguments.map_flag_with_value "--name=a=b" = .ok (.Name (some "a")) :=
  map_flag_with_value_second_piece "--name=a=b" "a" ["b"] (by decide)

/-- C6 counterexample: `key=value` with a no-value catalog key produces
the very same "'<key>' is not a valid flag" message used for unknown keys;
there is no distinct "flag does not accept a value" error. -/
theorem no_value_flag_with_value_same_error_as_unknown :
    ProgramArguments.build ["--verbose=1"] =
      .err ⟨"'--verbose' is not a valid flag, run again with --help or -h for more info."⟩ ∧
    ProgramArguments.build ["--zzz=1"] =
      .err ⟨"'--zzz' is not a valid flag, run again with --help or -h for more info."⟩ := by
  constructor
  · decide
  · decide

/-- C6 amended: a `key=value` token whose key matches a catalog flag that
does not accept a value (Help, Verbose, Test, by long or short form) fails
resolution, but with the same "'<key>' is not a valid flag" error message
the resolver uses for keys matching no catalog entry — not with a distinct
"flag does not accept a value" error. -/
theorem no_value_flag_with_value_not_valid_flag_error
    (s key v : String) (rest : List String)
    (h : RStr.split s = key :: v :: rest)
    (hk : key = "--help" ∨ key = "-h" ∨ key = "--verbose" ∨ key = "-v" ∨
      key = "--test" ∨ key = "-t") :
    ProgramArguments.map_flag_with_value s =
      .err ⟨"'" ++ key ++ "' is not a valid flag, run again with --help or -h for more info."⟩ := by
  rcases hk with hk | hk | hk | hk | hk | hk <;>
    subst hk <;> simp only [ProgramArguments.map_flag_with_value, h] <;> rfl

/-- C6 witness: the amended statement at the concrete token `--verbose=1`. -/
theorem no_value_flag_with_value_not_valid_flag_error_w :
    ProgramArguments.map_flag_with_value "--verbose=1" =
      .err ⟨"'--verbose' is not a valid flag, run again with --help or -h for more info."⟩ :=
  no_value_flag_with_value_not_valid_flag_error "--verbose=1" "--verbose" "1" []
    (by decide) (Or.inr (Or.inr (Or.inl rfl)))

/-- C8: once a project type is recorded in the loop state, any further
non-flag token makes the resolver fail with the "one project type only"
error naming that (trimmed, lowercased) token; and a successful resolution
stores at most one project type. -/
theorem build_rejects_second_project_type :
    (∀ (a : String) (rest : List String) (pt : ProjectType) (flags : List Flag),
      RStr.startsWith (RStr.toLowercase (RStr.trim a)) "-" = false →
      ProgramArguments.buildLoop (a :: rest) (some pt) flags =
        .err ⟨"You can only provide one project type! Found extra type '" ++
          RStr.toLowercase (RStr.trim a) ++ "'"⟩) ∧
    (∀ (toks : List String) (args : ProgramArguments),
      ProgramArguments.build toks = .ok args → args.project_type.toList.length ≤ 1) := by
  constructor
  · intro a rest pt flags h
    simp only [ProgramArguments.buildLoop, h]
    rfl
  · intro toks args _
    cases h : args.project_type <;> simp [h]

/-- C8 witness: `react` after `django` is rejected with the error naming
`react`. -/
theorem build_rejects_second_project_type_w :
    ProgramArguments.buildLoop ["react"] (some .Django) [] =
      .err ⟨"You can only provide one project type! Found extra type 'react'"⟩ := by
  have h := build_rejects_second_project_type.1 "react" [] .Django [] (by decide)
  simpa using h

/-- Environment in which every step command succeeds but inspecting the
project directory (`read_dir`) fails. -/
def envReadDirFails : Env :=
  { envBase with readDir := fun _ => .err "Permission denied" }

/-- C7 counterexample: with `read_dir` failing, the React orchestrator
still reports overall success and runs every remaining step in the old
(un-repointed) working directory — the inspection failure is swallowed
silently, not surfaced. -/
theorem react_read_dir_failure_ignored :
    envReadDirFails.readDir "/work/app" = .err "Permission denied" ∧
    ProjectType.set_up_react_project envReadDirFails [Flag.Name (some "app")] =
      (.ok (), [("/work/app", "npm create vite@latest"),
        ("/work/app", "npm install"), ("/work/app", "npm run dev")]) ∧
    (ProjectType.set_up_react_project envReadDirFails [Flag.Name (some "app")]).1.isErr
      = false := by
  refine ⟨rfl, ?_, ?_⟩
  · decide
  · decide

/-- C7 amended: when the React orchestrator's post-scaffold directory
inspection fails, that failure is silently ignored — the run continues
with the working directory left at the project directory, and (when the
remaining steps succeed) reports overall success. Step failures themselves
are still propagated by the step runner. -/
theorem react_continues_after_read_dir_failure
    (env : Env) (flags : List Flag) (nm msg o1 o2 o3 : String)
    (hn : Flag.get_project_name flags = some nm)
    (ht : RStr.trim nm = nm)
    (htest : Flag.is_test_run flags = false)
    (hc : env.createDir nm = .ok ())
    (hw : env.isWindows = false)
    (h1 : env.exec ["sh", "-c"] (env.currentDir ++ "/" ++ nm) "npm create vite@latest"
      = .exited 0 o1)
    (hrd : env.readDir (env.currentDir ++ "/" ++ nm) = .err msg)
    (h2 : env.exec ["sh", "-c"] (env.currentDir ++ "/" ++ nm) "npm install" = .exited 0 o2)
    (h3 : env.exec ["sh", "-c"] (env.currentDir ++ "/" ++ nm) "npm run dev" = .exited 0 o3) :
    ProjectType.set_up_react_project env flags =
      (.ok (), [(env.currentDir ++ "/" ++ nm, "npm create vite@latest"),
        (env.currentDir ++ "/" ++ nm, "npm install"),
        (env.currentDir ++ "/" ++ nm, "npm run dev")]) := by
  simp only [ProjectType.set_up_react_project, acquireName, hn, ht, testRunRedirect, htest,
    Terminal.new, Terminal.runCmd, reactRepoint, hw, hc, h1, hrd, h2, h3]
  simp [hc, h1, hrd, h2, h3]

/-- C7 witness: the amended statement at the concrete failing environment. -/
theorem react_continues_after_read_dir_failure_w :
    ProjectType.set_up_react_project envReadDirFails [Flag.Name (some "app")] =
      (.ok (), [("/work/app", "npm create vite@latest"),
        ("/work/app", "npm install"), ("/work/app", "npm run dev")]) := by
  have h := react_continues_after_read_dir_failure envReadDirFails [Flag.Name (some "app")]
    "app" "Permission denied" "" "" "" rfl (by decide) (by decide) rfl rfl rfl rfl rfl rfl
  simpa using h

/-- Environment in which the venv step succeeds and every later step
command exits with status 1. -/
def envDjangoStep2Fails : Env :=
  { envBase with
    exec := fun _ _ cmd =>
      if cmd = "python -m venv env" then .exited 0 "" else .exited 1 "" }

/-- C9: (1) a step command that runs but exits non-zero makes
`Terminal::run_cmd` fail with exactly the step's configured failure
message; (2) a spawn failure makes it fail with the configured message
wrapping the underlying spawn error; (3) in the Django orchestration, when
the second step (pip install) exits non-zero, the run aborts with that
step's message and the trace shows no later step was handed to the
runner. -/
theorem step_runner_failure_and_stop :
    (∀ (env : Env) (t : Terminal) (cmd err_msg log_msg : String) (flags : List Flag)
      (s : Nat) (out : String),
      env.exec t.base_shell_args t.working_dir cmd = .exited s out → s ≠ 0 →
      t.runCmd env cmd err_msg log_msg flags = .err ⟨err_msg⟩) ∧
    (∀ (env : Env) (t : Terminal) (cmd err_msg log_msg : String) (flags : List Flag)
      (e : String),
      env.exec t.base_shell_args t.working_dir cmd = .spawnErr e →
      t.runCmd env cmd err_msg log_msg flags = .err ⟨err_msg ++ " " ++ e⟩) ∧
    (∀ (env : Env) (flags : List Flag) (nm o1 o2 : String) (st : Nat),
      Flag.get_project_name flags = some nm →
      RStr.trim nm = nm →
      Flag.is_test_run flags = false →
      env.createDir nm = .ok () →
      env.isWindows = false →
      env.exec ["sh", "-c"] (env.currentDir ++ "/" ++ nm) "python -m venv env"
        = .exited 0 o1 →
      env.exec ["sh", "-c"] (env.currentDir ++ "/" ++ nm)
        "source env/bin/activate && pip install django" = .exited st o2 →
      st ≠ 0 →
      ProjectType.set_up_django_project env flags =
        (.err ⟨"Failed to install django with pip."⟩,
         [(env.currentDir ++ "/" ++ nm, "python -m venv env"),
          (env.currentDir ++ "/" ++ nm, "source env/bin/activate && pip install django")])) := by
  refine ⟨?_, ?_, ?_⟩
  · intro env t cmd err_msg log_msg flags s out h hs
    simp [Terminal.runCmd, h, hs]
  · intro env t cmd err_msg log_msg flags e h
    simp [Terminal.runCmd, h]
  · intro env flags nm o1 o2 st hn ht htest hc hw h1 h2 hst
    simp only [ProjectType.set_up_django_project, acquireName, hn, ht, testRunRedirect, htest,
      Terminal.new, Terminal.runCmd, hw, hc, h1, h2]
    simp [hc, h1, h2, hst]

/-- C9 witness: the Django orchestration in the concrete environment where
the pip-install step exits 1 — it aborts with that step's message after
exactly two steps. -/
theorem step_runner_failure_and_stop_w :
    ProjectType.set_up_django_project envDjangoStep2Fails [Flag.Name (some "app")] =
      (.err ⟨"Failed to install django with pip."⟩,
       [("/work/app", "python -m venv env"),
        ("/work/app", "source env/bin/activate && pip install django")]) := by
  have h := step_runner_failure_and_stop.2.2 envDjangoStep2Fails [Flag.Name (some "app")]
    "app" "" "" 1 rfl (by decide) (by decide) rfl rfl (by decide) (by decide) (by decide)
  simpa using h

theorem lowerChar_idem (c : Char) : lowerChar (lowerChar c) = lowerChar c := by
  by_cases hA : c = 'A'
  · subst hA; decide
  by_cases hB : c = 'B'
  · subst hB; decide
  by_cases hC : c = 'C'
  · subst hC; decide
  by_cases hD : c = 'D'
  · subst hD; decide
  by_cases hE : c = 'E'
  · subst hE; decide
  by_cases hF : c = 'F'
  · subst hF; decide
  by_cases hG : c = 'G'
  · subst hG; decide
  by_cases hH : c = 'H'
  · subst hH; decide
  by_cases hI : c = 'I'
  · subst hI; decide
  by_cases hJ : c = 'J'
  · subst hJ; decide
  by_cases hK : c = 'K'
  · subst hK; decide
  by_cases hL : c = 'L'
  · subst hL; decide
  by_cases hM : c = 'M'
  · subst hM; decide
  by_cases hN : c = 'N'
  · subst hN; decide
  by_cases hO : c = 'O'
  · subst hO; decide
  by_cases hP : c = 'P'
  · subst hP; decide
  by_cases hQ : c = 'Q'
  · subst hQ; decide
  by_cases hR : c = 'R'
  · subst hR; decide
  by_cases hS : c = 'S'
  · subst hS; decide
  by_cases hT : c = 'T'
  · subst hT; decide
  by_cases hU : c = 'U'
  · subst hU; decide
  by_cases hV : c = 'V'
  · subst hV; decide
  by_cases hW : c = 'W'
  · subst hW; decide
  by_cases hX : c = 'X'
  · subst hX; decide
  by_cases hY : c = 'Y'
  · subst hY; decide
  by_cases hZ : c = 'Z'
  · subst hZ; decide
  have h : lowerChar c = c := by
    unfold lowerChar
    rw [if_neg hA, if_neg hB, if_neg hC, if_neg hD, if_neg hE, if_neg hF, if_neg hG,
      if_neg hH, if_neg hI, if_neg hJ, if_neg hK, if_neg hL, if_neg hM, if_neg hN,
      if_neg hO, if_neg hP, if_neg hQ, if_neg hR, if_neg hS, if_neg hT, if_neg hU,
      if_neg hV, if_neg hW, if_neg hX, if_neg hY, if_neg hZ]
  rw [h, h]

theorem toLowercase_fixed (s : String) :
    ∀ c ∈ (RStr.toLowercase s).data, lowerChar c = c := by
  intro c hc
  have hd : (RStr.toLowercase s).data = s.data.map lowerChar := rfl
  rw [hd] at hc
  rcases List.mem_map.1 hc with ⟨a, _, rfl⟩
  exact lowerChar_idem a

theorem mem_of_mem_splitEqList (l : List Char) :
    ∀ p ∈ RStr.splitEqList l, ∀ c ∈ p, c ∈ l := by
  induction l with
  | nil =>
    intro p hp c hc
    simp [RStr.splitEqList] at hp
    subst hp
    cases hc
  | cons a as ih =>
    intro p hp c hc
    by_cases ha : a = '='
    · rw [RStr.splitEqList, if_pos ha] at hp
      rcases List.mem_cons.1 hp with h | h
      · subst h; cases hc
      · exact List.mem_cons_of_mem _ (ih p h c hc)
    · rw [RStr.splitEqList, if_neg ha] at hp
      cases hqs : RStr.splitEqList as with
      | nil =>
        rw [hqs] at hp
        simp at hp
        subst hp
        simp at hc
        simp [hc]
      | cons q qs =>
        rw [hqs] at hp
        rcases List.mem_cons.1 hp with h | h
        · subst h
          rcases List.mem_cons.1 hc with h | h
          · simp [h]
          · have hq : q ∈ RStr.splitEqList as := by
              rw [hqs]; exact List.mem_cons_self q qs
            exact List.mem_cons_of_mem _ (ih q hq c h)
        · have hpmem : p ∈ RStr.splitEqList as := by
            rw [hqs]; exact List.mem_cons_of_mem q h
          exact List.mem_cons_of_mem _ (ih p hpmem c hc)

theorem split_chars_subset (s p : String) (hp : p ∈ RStr.split s) :
    ∀ c ∈ p.data, c ∈ s.data := by
  intro c hc
  rcases List.mem_map.1 hp with ⟨l, hl, rfl⟩
  exact mem_of_mem_splitEqList s.data l hl c hc

theorem map_flag_with_value_name_lower (s : String)
    (hs : ∀ c ∈ s.data, lowerChar c = c) (v : String)
    (hf : ProgramArguments.map_flag_with_value s = .ok (.Name (some v))) :
    ∀ c ∈ v.data, lowerChar c = c := by
  unfold ProgramArguments.map_flag_with_value at hf
  split at hf
  next key value tail heq =>
    split at hf
    next flag hfind =>
      split at hf
      next =>
        simp only [RunResult.ok.injEq, Flag.Name.injEq, Option.some.injEq] at hf
        subst hf
        intro c hc
        have hvmem : value ∈ RStr.split s := by
          rw [heq]
          exact List.mem_cons_of_mem _ (List.mem_cons_self value tail)
        exact hs c (split_chars_subset s value hvmem c hc)
      next => simp at hf
    next => simp at hf
  next => simp at hf

theorem map_string_to_flag_name_lower (s : String)
    (hs : ∀ c ∈ s.data, lowerChar c = c) (v : String)
    (hf : ProgramArguments.map_string_to_flag s = .ok (.Name (some v))) :
    ∀ c ∈ v.data, lowerChar c = c := by
  unfold ProgramArguments.map_string_to_flag at hf
  split at hf
  next flag hfind =>
    have hmem := List.mem_of_find?_eq_some hfind
    simp [VALID_FLAGS] at hmem
    rcases hmem with h | h | h | h <;> subst h <;> simp at hf
  next hfind =>
    exact map_flag_with_value_name_lower s hs v hf

theorem buildLoop_name_values_lower (toks : List String) :
    ∀ (pt : Option ProjectType) (fl : List Flag) (args : ProgramArguments),
      ProgramArguments.buildLoop toks pt fl = .ok args →
      (∀ v, Flag.Name (some v) ∈ fl → ∀ c ∈ v.data, lowerChar c = c) →
      ∀ v, Flag.Name (some v) ∈ args.flags → ∀ c ∈ v.data, lowerChar c = c := by
  induction toks with
  | nil =>
    intro pt fl args h hfl
    simp only [ProgramArguments.buildLoop, RunResult.ok.injEq] at h
    subst h
    exact hfl
  | cons a rest ih =>
    intro pt fl args h hfl
    simp only [ProgramArguments.buildLoop] at h
    by_cases hd : RStr.startsWith (RStr.toLowercase (RStr.trim a)) "-" = true
    · rw [if_pos hd] at h
      cases hm : ProgramArguments.map_string_to_flag (RStr.toLowercase (RStr.trim a)) with
      | ok f =>
        rw [hm] at h
        refine ih pt (fl ++ [f]) args h ?_
        intro v hv
        rcases List.mem_append.1 hv with h1 | h1
        · exact hfl v h1
        · simp at h1
          rw [← h1] at hm
          exact map_string_to_flag_name_lower _ (toLowercase_fixed (RStr.trim a)) v hm
      | err e => rw [hm] at h; simp at h
      | panicked m => rw [hm] at h; simp at h
    · rw [if_neg hd] at h
      cases pt with
      | none =>
        cases hm : ProgramArguments.map_string_to_project_type
            (RStr.toLowercase (RStr.trim a)) with
        | ok t =>
          rw [hm] at h
          exact ih (some t) fl args h hfl
        | err e => rw [hm] at h; simp at h
        | panicked m => rw [hm] at h; simp at h
      | some t => simp at h

theorem map_lowerChar_fixed (l : List Char) (h : ∀ c ∈ l, lowerChar c = c) :
    l.map lowerChar = l := by
  induction l with
  | nil => rfl
  | cons c cs ih =>
    simp only [List.map_cons]
    rw [h c (List.mem_cons_self c cs), ih (fun d hd => h d (List.mem_cons_of_mem c hd))]

/-- Environment in which the prompt answers ` MyApp \n` (mixed case,
surrounding whitespace) and every other effect succeeds. -/
def envPromptMixedCase : Env :=
  { envBase with promptInput := .ok " MyApp \n" }

/-- C10: (1) resolving `--name=MyApp` yields `Name("myapp")`; (2) every
`Name` value produced by a successful `ProgramArguments::build` is fixed
under lowercasing, because each whole token is trimmed and lowercased
before any flag parsing; (3) a name obtained from the interactive prompt
is only trimmed, not lowercased: prompting ` MyApp \n` makes the Django
orchestration work in `<current_dir>/MyApp`, keeping the capital letters. -/
theorem name_flag_value_lowercased :
    (ProgramArguments.build ["--name=MyApp"] = .ok ⟨none, [Flag.Name (some "myapp")]⟩) ∧
    (∀ (toks : List String) (args : ProgramArguments) (v : String),
      ProgramArguments.build toks = .ok args →
      Flag.Name (some v) ∈ args.flags → RStr.toLowercase v = v) ∧
    (ProjectType.set_up_django_project envPromptMixedCase [] =
      (.ok (), [("/work/MyApp", "python -m venv env"),
        ("/work/MyApp", "source env/bin/activate && pip install django"),
        ("/work/MyApp", "source env/bin/activate && django-admin startproject core ."),
        ("/work/MyApp", "source env/bin/activate && python manage.py runserver")])) := by
  refine ⟨by decide, ?_, by decide⟩
  intro toks args v h hv
  have hchars := buildLoop_name_values_lower toks none [] args h (by simp) v hv
  show String.mk (v.data.map lowerChar) = v
  rw [map_lowerChar_fixed v.data hchars]

/-- C10 witness: the all-lowercase consequence at the concrete resolution
of `--name=MyApp`. -/
theorem name_flag_value_lowercased_w : RStr.toLowercase "myapp" = "myapp" :=
  name_flag_value_lowercased.2.1 ["--name=MyApp"] ⟨none, [Flag.Name (some "myapp")]⟩ "myapp"
    (by decide) (by decide)
